import Mathlib

/-!
Verification of the ESP32 telemetry dashboard (Flask server `server.py` and
device simulator `esp32_simulator.py`).

The server keeps two global dictionaries: `latest_data` (device id → record
dict) and `last_seen` (device id → arrival time).  Records are themselves
Python dicts, so both levels are modelled as association lists with Python
dict semantics: insertion overwrites in place, otherwise appends; lookup
takes the first matching key.
-/

namespace Esp32

/-- JSON-ish values that travel in payloads and records. -/
inductive Val where
  | num (q : ℚ)
  | str (s : String)
  | bool (b : Bool)
  | null
deriving DecidableEq

/-- Python dict lookup: first entry with the given key. -/
def dlookup {κ α : Type} [DecidableEq κ] (k : κ) : List (κ × α) → Option α
  | [] => none
  | e :: rest => if e.1 = k then some e.2 else dlookup k rest

/-- Python dict assignment `d[k] = v`: overwrite in place if the key is
present, otherwise append at the end. -/
def dinsert {κ α : Type} [DecidableEq κ] (d : List (κ × α)) (k : κ) (v : α) :
    List (κ × α) :=
  if (dlookup k d).isSome then
    d.map (fun e => if e.1 = k then (k, v) else e)
  else
    d ++ [(k, v)]

/-- Python `del d[k]`. -/
def derase {κ α : Type} [DecidableEq κ] (k : κ) (d : List (κ × α)) :
    List (κ × α) :=
  d.filter (fun e => ! decide (e.1 = k))

theorem dlookup_nil {κ α : Type} [DecidableEq κ] (k : κ) :
    dlookup k ([] : List (κ × α)) = none := rfl

theorem dlookup_cons {κ α : Type} [DecidableEq κ] (k : κ) (e : κ × α)
    (rest : List (κ × α)) :
    dlookup k (e :: rest) = if e.1 = k then some e.2 else dlookup k rest := rfl

theorem dlookup_append {κ α : Type} [DecidableEq κ] (k : κ)
    (d1 d2 : List (κ × α)) :
    dlookup k (d1 ++ d2) =
      match dlookup k d1 with
      | some v => some v
      | none => dlookup k d2 := by
  induction d1 with
  | nil => simp [dlookup]
  | cons e rest ih =>
      by_cases h : e.1 = k <;> simp [dlookup, h, ih]

theorem dlookup_map_update_self {κ α : Type} [DecidableEq κ] (k : κ) (v : α)
    (d : List (κ × α)) (h : (dlookup k d).isSome) :
    dlookup k (d.map (fun e => if e.1 = k then (k, v) else e)) = some v := by
  induction d with
  | nil => simp [dlookup] at h
  | cons e rest ih =>
      by_cases he : e.1 = k
      · simp [dlookup, he]
      · simp [dlookup, he] at h ⊢
        exact ih h

theorem dlookup_map_update_ne {κ α : Type} [DecidableEq κ] (k k2 : κ) (v : α)
    (d : List (κ × α)) (h : k ≠ k2) :
    dlookup k2 (d.map (fun e => if e.1 = k then (k, v) else e)) =
      dlookup k2 d := by
  induction d with
  | nil => simp [dlookup]
  | cons e rest ih =>
      by_cases he : e.1 = k
      · have he2 : ¬ e.1 = k2 := by rw [he]; exact h
        simp [dlookup, he, h, he2, ih]
      · have hk2k : ¬ k2 = k := fun hh => h hh.symm
        by_cases he2 : e.1 = k2 <;> simp [dlookup, he, he2, hk2k, ih]

theorem dlookup_dinsert {κ α : Type} [DecidableEq κ] (d : List (κ × α))
    (k k2 : κ) (v : α) :
    dlookup k2 (dinsert d k v) = if k = k2 then some v else dlookup k2 d := by
  unfold dinsert
  by_cases hp : (dlookup k d).isSome
  · by_cases hk : k = k2
    · subst hk
      simp [hp, dlookup_map_update_self k v d hp]
    · simp [hp, hk, dlookup_map_update_ne k k2 v d hk]
  · by_cases hk : k = k2
    · subst hk
      have hnone : dlookup k d = none := by
        cases h : dlookup k d with
        | none => rfl
        | some v2 => simp [h] at hp
      simp [hp, dlookup_append, hnone, dlookup]
    · simp only [hp, if_false, dlookup_append, Bool.false_eq_true]
      cases h : dlookup k2 d with
      | none => simp [dlookup, hk]
      | some v2 => simp [hk]

theorem derase_cons {κ α : Type} [DecidableEq κ] (k : κ) (e : κ × α)
    (rest : List (κ × α)) :
    derase k (e :: rest) =
      if e.1 = k then derase k rest else e :: derase k rest := by
  by_cases he : e.1 = k <;> simp [derase, List.filter_cons, he]

theorem dlookup_derase {κ α : Type} [DecidableEq κ] (k k2 : κ)
    (d : List (κ × α)) :
    dlookup k2 (derase k d) = if k = k2 then none else dlookup k2 d := by
  induction d with
  | nil => simp [derase, dlookup]
  | cons e rest ih =>
      rw [derase_cons]
      by_cases he : e.1 = k
      · by_cases hk : k = k2
        · subst hk
          simp [he, ih]
        · have he2 : ¬ e.1 = k2 := by rw [he]; exact hk
          simp [he, ih, hk, dlookup, he2]
      · by_cases hk2 : e.1 = k2
        · have hkk : ¬ k = k2 := fun h => he (hk2.trans h.symm)
          have hk2k : ¬ k2 = k := fun hh => hkk hh.symm
          simp [he, dlookup, hk2, hkk, hk2k]
        · simp [he, dlookup, hk2, ih]

theorem dlookup_foldl_derase {κ α : Type} [DecidableEq κ] (ids : List κ)
    (d : List (κ × α)) (k : κ) :
    dlookup k (ids.foldl (fun d2 i => derase i d2) d) =
      if k ∈ ids then none else dlookup k d := by
  induction ids generalizing d with
  | nil => simp
  | cons i rest ih =>
      simp only [List.foldl_cons, ih, dlookup_derase]
      by_cases hmem : k ∈ rest
      · simp [hmem]
      · by_cases hik : i = k
        · subst hik
          simp [hmem]
        · have hki : ¬ k = i := fun h => hik h.symm
          simp [hmem, hik, hki, List.mem_cons]

theorem dlookup_isSome_iff_mem_keys {κ α : Type} [DecidableEq κ] (k : κ)
    (d : List (κ × α)) :
    (dlookup k d).isSome = true ↔ k ∈ d.map Prod.fst := by
  induction d with
  | nil => simp [dlookup]
  | cons e rest ih =>
      by_cases he : e.1 = k
      · simp [dlookup, he, List.map_cons, List.mem_cons]
      · simp only [dlookup, he, if_false, ih, List.map_cons, List.mem_cons]
        constructor
        · exact Or.inr
        · rintro (h | h)
          · exact absurd h.symm he
          · exact h

theorem dlookup_eq_none_iff {κ α : Type} [DecidableEq κ] (k : κ)
    (d : List (κ × α)) :
    dlookup k d = none ↔ k ∉ d.map Prod.fst := by
  rw [← dlookup_isSome_iff_mem_keys]
  cases h : dlookup k d <;> simp [h]

theorem dlookup_map_keyed {κ α β : Type} [DecidableEq κ]
    (l : List (κ × α)) (f : κ → α → β) (k : κ) :
    dlookup k (l.map (fun e => (e.1, f e.1 e.2))) =
      (dlookup k l).map (f k) := by
  induction l with
  | nil => simp [dlookup]
  | cons e rest ih =>
      by_cases he : e.1 = k
      · subst he
        simp [dlookup, ih]
      · simp [dlookup, he, ih]

/-- Python truthiness of a JSON value (`if not device_id`). -/
def pyTruthy : Val → Bool
  | .num q => decide (q ≠ 0)
  | .str s => decide (s ≠ "")
  | .bool b => b
  | .null => false

/-- Python `int(x)`: truncation toward zero. -/
def pyInt (x : ℚ) : ℤ := if 0 ≤ x then ⌊x⌋ else ⌈x⌉

/-- Python `round` to an integer: round half to even. -/
def pyRound (x : ℚ) : ℤ :=
  let n := ⌊x⌋
  let f := x - n
  if f < 1/2 then n
  else if 1/2 < f then n + 1
  else if n % 2 = 0 then n else n + 1

/-- Python `round(x, 1)`. -/
def round1 (x : ℚ) : ℚ := (pyRound (10 * x) : ℚ) / 10

/-- Python `round(x, 2)`. -/
def round2 (x : ℚ) : ℚ := (pyRound (100 * x) : ℚ) / 100

/-- Python `a % b` on floats (sign follows `b`; here only used with `b > 0`). -/
def pyMod (a b : ℚ) : ℚ := a - b * ⌊a / b⌋

/-! ### Server model (`server.py`)

`latest_data : Dict[str, Dict[str, Any]]` maps a device id to its record
dict, `last_seen : Dict[str, float]` maps it to the arrival time of its last
accepted ingest.  Device ids are JSON values (whatever the payload carried
under `device_id`). -/

/-- A record dict or payload dict. -/
abbrev JDict : Type := List (String × Val)

/-- The two global dictionaries of the server. -/
structure ServerState where
  latest_data : List (Val × JDict)
  last_seen : List (Val × ℚ)

/-- `CONNECTION_TIMEOUT = 15` seconds. -/
def CONNECTION_TIMEOUT : ℚ := 15

/-- Fresh server: both dictionaries empty. -/
def emptyState : ServerState := ⟨[], []⟩

/-- Body of the per-device work in `check_connection_status` for a device
present in `last_seen`: refresh `connection_status` and
`last_seen_seconds`, and set the sticky `was_connected` marker if the device
has been silent for more than 4x the timeout and the key is absent. -/
def sweepRecord (now t : ℚ) (rec : JDict) : JDict :=
  let rec1 := dinsert rec "connection_status"
    (.str (if now - t < CONNECTION_TIMEOUT then "connected" else "disconnected"))
  let rec2 := dinsert rec1 "last_seen_seconds" (.num (round1 (now - t)))
  if CONNECTION_TIMEOUT * 4 < now - t then
    if dlookup "was_connected" rec2 = none then
      dinsert rec2 "was_connected" (.bool true)
    else rec2
  else rec2

/-- One device of the sweep: devices missing from `last_seen` are skipped. -/
def sweepApply (now : ℚ) (ls : List (Val × ℚ)) (id : Val) (rec : JDict) :
    JDict :=
  match dlookup id ls with
  | some t => sweepRecord now t rec
  | none => rec

/-- `check_connection_status`: the 1-second periodic sweep (one pass). -/
def check_connection_status (now : ℚ) (s : ServerState) : ServerState :=
  { s with latest_data :=
      s.latest_data.map (fun e => (e.1, sweepApply now s.last_seen e.1 e.2)) }

/-- One step of a fill-if-absent loop (`if field not in d: d[field] = v`). -/
def dsetdefault (d : JDict) (kv : String × Val) : JDict :=
  if dlookup kv.1 d = none then dinsert d kv.1 kv.2 else d

/-- The lazy backfill done by `get_latest_data` on every record:
`voltage=0.0`, `gear=0`, `fuel_level=0.0` for missing keys. -/
def read_backfill (d : JDict) : JDict :=
  [("voltage", Val.num 0), ("gear", Val.num 0), ("fuel_level", Val.num 0)].foldl
    dsetdefault d

/-- Per-record work of the `/latest` read path (`get_latest_data`). -/
def readRecord (now : ℚ) (tOpt : Option ℚ) (rec : JDict) : JDict :=
  let rec1 :=
    match tOpt with
    | some t =>
        dinsert
          (dinsert rec "last_seen_seconds" (.num (round1 (now - t))))
          "connection_status"
          (.str (if now - t < CONNECTION_TIMEOUT then "connected" else "disconnected"))
    | none => rec
  read_backfill rec1

/-- `get_latest_data`: mutates every record as `readRecord` does and returns
the full mapping (the returned mapping is the mutated `latest_data`). -/
def get_latest_data (now : ℚ) (s : ServerState) : ServerState :=
  { s with latest_data :=
      s.latest_data.map (fun e => (e.1, readRecord now (dlookup e.1 s.last_seen) e.2)) }

/-- `/status` report: per device `(id, connected, last_seen, last_update)`. -/
def get_status (now : ℚ) (s : ServerState) :
    List (Val × Bool × Option ℚ × Val) :=
  s.latest_data.map (fun e =>
    match dlookup e.1 s.last_seen with
    | some t =>
        (e.1, decide (now - t < CONNECTION_TIMEOUT), some (round1 (now - t)),
          (dlookup "timestamp" e.2).getD (.str "N/A"))
    | none => (e.1, false, none, (dlookup "timestamp" e.2).getD (.str "N/A")))

/-- `required_keys = ['rpm', 'speed', 'temp_motor', 'throttle_pos']`. -/
def required_keys : List String := ["rpm", "speed", "temp_motor", "throttle_pos"]

/-- Outcome of `/data` (`receive_data`).  `errMissingKeys` carries the list
of key names interpolated into the error message (the code interpolates
`required_keys` itself: `', '.join(required_keys)`). -/
inductive IngestResult where
  | ok (dev : Val)
  | errNoDeviceId
  | errMissingKeys (named : List String)
deriving DecidableEq

/-- The `device_data` dict literal of `receive_data` (required fields,
arrival timestamp, and the fixed connection fields), in source order. -/
def base_device_data (p : JDict) (ts : String) : JDict :=
  [("rpm", (dlookup "rpm" p).getD .null),
   ("speed", (dlookup "speed" p).getD .null),
   ("temp_motor", (dlookup "temp_motor" p).getD .null),
   ("throttle_pos", (dlookup "throttle_pos" p).getD .null),
   ("timestamp", .str ts),
   ("connection_status", .str "connected"),
   ("last_seen_seconds", .num 0),
   ("was_connected", .bool true)]

/-- The copy loop of `receive_data`: every payload field other than
`device_id` and the required keys is written into `device_data` verbatim. -/
def copy_extra_fields (base : JDict) (p : JDict) : JDict :=
  p.foldl
    (fun dd kv =>
      if kv.1 = "device_id" ∨ kv.1 ∈ required_keys then dd
      else dinsert dd kv.1 kv.2)
    base

/-- `default_fields = {'voltage': 13.5, 'gear': 0, 'fuel_level': 50.0}`. -/
def default_fields : List (String × Val) :=
  [("voltage", .num 13.5), ("gear", .num 0), ("fuel_level", .num 50)]

/-- The defaults loop of `receive_data`: each of `voltage`, `gear`,
`fuel_level` is added if (and only if) it is absent from `device_data`. -/
def add_default_fields (dd : JDict) : JDict :=
  default_fields.foldl dsetdefault dd

/-- `receive_data` (`POST /data`), given the request arrival time `now` and
the formatted wall-clock string `ts`.  The payload `p` is the parsed JSON
object. -/
def receive_data (s : ServerState) (p : JDict) (now : ℚ) (ts : String) :
    ServerState × IngestResult :=
  match dlookup "device_id" p with
  | none => (s, .errNoDeviceId)
  | some dev =>
    if pyTruthy dev then
      if required_keys.all (fun k => (dlookup k p).isSome) then
        let device_data := add_default_fields
          (copy_extra_fields (base_device_data p ts) p)
        ({ latest_data := dinsert s.latest_data dev device_data,
           last_seen := dinsert s.last_seen dev now }, .ok dev)
      else (s, .errMissingKeys required_keys)
    else (s, .errNoDeviceId)

/-- The `devices_to_remove` list of `remove_disconnected_devices`: every
device of `latest_data` that is in `last_seen` with an elapsed time
strictly exceeding the timeout, in `latest_data` key order. -/
def devices_to_remove (now : ℚ) (s : ServerState) : List Val :=
  (s.latest_data.map Prod.fst).filter (fun id =>
    match dlookup id s.last_seen with
    | some t => decide (CONNECTION_TIMEOUT < now - t)
    | none => false)

/-- `remove_disconnected_devices`: collect every device of `latest_data`
whose elapsed time strictly exceeds the timeout, delete it from both
dictionaries, and return the removed ids. -/
def remove_disconnected_devices (now : ℚ) (s : ServerState) :
    ServerState × List Val :=
  ({ latest_data :=
       (devices_to_remove now s).foldl (fun d i => derase i d) s.latest_data,
     last_seen :=
       (devices_to_remove now s).foldl (fun d i => derase i d) s.last_seen },
   devices_to_remove now s)

/-- `remove_all`: clear both dictionaries, reporting the prior count. -/
def remove_all (s : ServerState) : ServerState × ℕ :=
  (⟨[], []⟩, s.latest_data.length)

/-- The store-mutating operations of the server. -/
inductive Op where
  | ingest (p : JDict) (now : ℚ) (ts : String)
  | sweep (now : ℚ)
  | removeDisc (now : ℚ)
  | removeAll

/-- Apply one operation to the server state. -/
def applyOp (s : ServerState) : Op → ServerState
  | .ingest p now ts => (receive_data s p now ts).1
  | .sweep now => check_connection_status now s
  | .removeDisc now => (remove_disconnected_devices now s).1
  | .removeAll => (remove_all s).1

/-- Run a sequence of operations from the fresh server. -/
def run (ops : List Op) : ServerState := ops.foldl applyOp emptyState

/-! ### Simulator model (`esp32_simulator.py`) -/

/-- The five vehicle types. -/
inductive VehicleType where
  | SEDAN
  | SUV
  | PICKUP
  | HATCH
  | SPORT
deriving DecidableEq

/-- A vehicle profile: metric ranges and the (unused-in-generation)
`max_gear`. -/
structure VehicleConfig where
  rpm_lo : ℚ
  rpm_hi : ℚ
  speed_lo : ℚ
  speed_hi : ℚ
  temp_lo : ℚ
  temp_hi : ℚ
  max_gear : ℤ

/-- `_get_vehicle_config`. -/
def vehicle_config : VehicleType → VehicleConfig
  | .SEDAN => ⟨800, 3500, 30, 120, 85, 95, 6⟩
  | .SUV => ⟨900, 3200, 20, 100, 88, 98, 6⟩
  | .PICKUP => ⟨1000, 3800, 25, 110, 90, 105, 5⟩
  | .HATCH => ⟨850, 4500, 35, 140, 82, 92, 5⟩
  | .SPORT => ⟨1200, 7000, 40, 180, 90, 110, 7⟩

/-- The mutable per-device state (`self.state`). -/
structure SimState where
  rpm_base : ℚ
  speed_base : ℚ
  temp_base : ℚ
  throttle_base : ℚ
  fuel_level : ℚ
  voltage_base : ℚ
  gear : ℤ

/-- One draw from each `random.uniform` call of a generation tick, in
source order: `U(-5,5)`, `U(-50,50)`, `U(-2,2)`, `U(-1,1)`, `U(-0.1,0.1)`. -/
structure Draws where
  throttle_d : ℚ
  rpm_d : ℚ
  speed_d : ℚ
  temp_d : ℚ
  voltage_d : ℚ

/-- The draws are within the ranges of their `random.uniform` calls. -/
def drawsInRange (d : Draws) : Prop :=
  -5 ≤ d.throttle_d ∧ d.throttle_d ≤ 5 ∧
  -50 ≤ d.rpm_d ∧ d.rpm_d ≤ 50 ∧
  -2 ≤ d.speed_d ∧ d.speed_d ≤ 2 ∧
  -1 ≤ d.temp_d ∧ d.temp_d ≤ 1 ∧
  -1/10 ≤ d.voltage_d ∧ d.voltage_d ≤ 1/10

/-- The simulator state is inside the ranges `__init__` draws it from. -/
def stateInProfile (vt : VehicleType) (st : SimState) : Prop :=
  let cfg := vehicle_config vt
  cfg.rpm_lo ≤ st.rpm_base ∧ st.rpm_base ≤ cfg.rpm_hi ∧
  cfg.speed_lo ≤ st.speed_base ∧ st.speed_base ≤ cfg.speed_hi ∧
  cfg.temp_lo ≤ st.temp_base ∧ st.temp_base ≤ cfg.temp_hi ∧
  10 ≤ st.throttle_base ∧ st.throttle_base ≤ 40 ∧
  30 ≤ st.fuel_level ∧ st.fuel_level ≤ 100 ∧
  25/2 ≤ st.voltage_base ∧ st.voltage_base ≤ 27/2

/-- One emitted telemetry sample (`ECUData`). -/
structure ECUData where
  device_id : String
  rpm : ℤ
  speed : ℚ
  temp_motor : ℚ
  throttle_pos : ℚ
  voltage : ℚ
  gear : ℤ
  fuel_level : ℚ
  timestamp : String

/-- RPM multiplier by vehicle type: sport 1.5, pickup 1.2, else 1.0. -/
def rpm_multiplier (vt : VehicleType) : ℚ :=
  if vt = .SPORT then 3/2 else if vt = .PICKUP then 6/5 else 1

/-- The speed-bucket gear selection of `generate_realistic_data`
(lines 169-182): thresholds 20/40/60/80/100/120 km/h, and above 120 km/h
gear 7 for the sport type, 6 for all others. -/
def gearStep (vt : VehicleType) (speed : ℚ) : ℤ :=
  if speed < 20 then 1
  else if speed < 40 then 2
  else if speed < 60 then 3
  else if speed < 80 then 4
  else if speed < 100 then 5
  else if speed < 120 then 6
  else if vt = .SPORT then 7 else 6

/-- The updated `throttle_base` of a tick: bounded random walk modulated by
the 300-second driving-pattern oscillator. -/
def throttlePre (st : SimState) (d : Draws) (ct : ℚ) : ℚ :=
  let time_factor := pyMod ct 300 / 300
  let driving_pattern := pyMod (1 + 1/2 * (1 + time_factor)) 1
  let throttle_variation := 1/2 + 1/2 * driving_pattern
  max 0 (min 100 (st.throttle_base + d.throttle_d * throttle_variation))

/-- The updated (pre-clamp) `rpm_base` of a tick: exponential smoothing
toward the throttle-derived target plus noise. -/
def rpmPre (vt : VehicleType) (st : SimState) (d : Draws) (ct : ℚ) : ℚ :=
  st.rpm_base * (9/10) +
    (throttlePre st d ct / 100 * (vehicle_config vt).rpm_hi * rpm_multiplier vt)
      * (1/10) + d.rpm_d

/-- The updated (pre-clamp) `speed_base` of a tick: exponential smoothing
toward the rpm-derived target plus noise.  This is the speed value the gear
selection reads. -/
def speedPre (vt : VehicleType) (st : SimState) (d : Draws) (ct : ℚ) : ℚ :=
  st.speed_base * (19/20) +
    (rpmPre vt st d ct / 3000 * (vehicle_config vt).speed_hi) * (1/20) +
    d.speed_d

/-- `generate_realistic_data`: one tick of the signal model.  Returns the
emitted `ECUData` sample and the updated state. -/
def generate_realistic_data (vt : VehicleType) (device_id ts : String)
    (st : SimState) (d : Draws) (ct : ℚ) : ECUData × SimState :=
  let cfg := vehicle_config vt
  let throttle1 := throttlePre st d ct
  let rpm1 := rpmPre vt st d ct
  let speed1 := speedPre vt st d ct
  let gear1 := gearStep vt speed1
  let temp1 := cfg.temp_lo + rpm1 / 3000 * 10 - speed1 / 100 * 8 + d.temp_d
  let voltage1 := 69/5 - rpm1 / 5000 * (1/2) + d.voltage_d
  let fuel1 := max 0 (st.fuel_level - rpm1 / 3000 * (1/100))
  let rpm2 := max cfg.rpm_lo (min cfg.rpm_hi rpm1)
  let speed2 := max 0 (min cfg.speed_hi speed1)
  let temp2 := max cfg.temp_lo (min (cfg.temp_hi + 10) temp1)
  let throttle2 := max 0 (min 100 throttle1)
  let voltage2 := max (23/2) (min (29/2) voltage1)
  ({ device_id := device_id, rpm := pyInt rpm2, speed := round1 speed2,
     temp_motor := round1 temp2, throttle_pos := round1 throttle2,
     voltage := round2 voltage2, gear := gear1, fuel_level := round1 fuel1,
     timestamp := ts },
   { rpm_base := rpm2, speed_base := speed2, temp_base := temp2,
     throttle_base := throttle2, fuel_level := fuel1, voltage_base := voltage2,
     gear := gear1 })

/-- Python `l * k`: the list repeated `k` times. -/
def pyListMul {α : Type} (l : List α) : ℕ → List α
  | 0 => []
  | n + 1 => l ++ pyListMul l n

/-- `f"Truck_{n:03d}"`. -/
def truckId (n : ℕ) : String :=
  "Truck_" ++ (if n < 10 then "00" else if n < 100 then "0" else "") ++ toString n

/-- `create_devices(num_devices, server_url, vehicle_types)`.  The
`vehicle_types is None` branch uses `random.choices(list(VehicleType),
k=num_devices)`, supplied here as `randChoices`; a supplied list shorter
than `num_devices` is repeated (`l * (num // len(l) + 1)`) and truncated.
Returns the device dictionary contents (id, type) and the created ids. -/
def create_devices (num_devices : ℤ) (vtypes : Option (List VehicleType))
    (randChoices : List VehicleType) :
    List (String × VehicleType) × List String :=
  let vts :=
    match vtypes with
    | none => randChoices
    | some l =>
        if (l.length : ℤ) < num_devices then
          (pyListMul l (num_devices.toNat / l.length + 1)).take num_devices.toNat
        else l
  let devices := (List.range num_devices.toNat).map
    (fun i => (truckId (i + 1), vts.getD i VehicleType.SEDAN))
  (devices, devices.map Prod.fst)

/-- The `--devices` guard of `main` (lines 513-516): `args.devices < 1` is
rejected with a logged error before `create_devices` is ever called. -/
def main_devices_invalid (devices : ℤ) : Bool := decide (devices < 1)

/-! ### Helper lemmas about the server operations -/

theorem sweepRecord_connection_status (now t : ℚ) (rec : JDict) :
    dlookup "connection_status" (sweepRecord now t rec) =
      some (.str (if now - t < CONNECTION_TIMEOUT then "connected"
        else "disconnected")) := by
  unfold sweepRecord
  split_ifs <;>
    simp [apply_ite (dlookup "connection_status"), dlookup_dinsert]

theorem dlookup_dsetdefault_ne (d : JDict) (kv : String × Val) (k : String)
    (h : ¬ kv.1 = k) : dlookup k (dsetdefault d kv) = dlookup k d := by
  unfold dsetdefault
  split <;> simp [dlookup_dinsert, h]

theorem dlookup_dsetdefault_self (d : JDict) (k : String) (v : Val) :
    dlookup k (dsetdefault d (k, v)) =
      if dlookup k d = none then some v else dlookup k d := by
  unfold dsetdefault
  split <;> simp [dlookup_dinsert, *]

theorem read_backfill_preserves (k : String) (d : JDict)
    (h1 : k ≠ "voltage") (h2 : k ≠ "gear") (h3 : k ≠ "fuel_level") :
    dlookup k (read_backfill d) = dlookup k d := by
  have hv : ¬ ("voltage" = k) := fun h => h1 h.symm
  have hg : ¬ ("gear" = k) := fun h => h2 h.symm
  have hf : ¬ ("fuel_level" = k) := fun h => h3 h.symm
  unfold read_backfill
  simp only [List.foldl_cons, List.foldl_nil]
  rw [dlookup_dsetdefault_ne _ _ _ hf, dlookup_dsetdefault_ne _ _ _ hg,
    dlookup_dsetdefault_ne _ _ _ hv]

theorem readRecord_connection_status (now t : ℚ) (rec : JDict) :
    dlookup "connection_status" (readRecord now (some t) rec) =
      some (.str (if now - t < CONNECTION_TIMEOUT then "connected"
        else "disconnected")) := by
  unfold readRecord
  rw [read_backfill_preserves "connection_status" _ (by decide) (by decide)
    (by decide)]
  simp [dlookup_dinsert]

/-- Claim C3: both the periodic sweep (`check_connection_status`) and the
read path (`get_latest_data`) classify a device with last-seen time `t`,
evaluated at time `now`, as connected exactly when the elapsed time
`now - t` is strictly below the 15-second timeout, and as disconnected
otherwise; in particular an elapsed time of 5 s yields `connected` and an
elapsed time of 20 s yields `disconnected`, on both paths. -/
theorem spec_c3 :
    ∀ (now t : ℚ) (rec : JDict),
      (dlookup "connection_status" (sweepRecord now t rec) =
          some (.str "connected") ↔ now - t < CONNECTION_TIMEOUT) ∧
      (dlookup "connection_status" (sweepRecord now t rec) =
          some (.str "disconnected") ↔ ¬ now - t < CONNECTION_TIMEOUT) ∧
      (dlookup "connection_status" (readRecord now (some t) rec) =
          some (.str "connected") ↔ now - t < CONNECTION_TIMEOUT) ∧
      (dlookup "connection_status" (readRecord now (some t) rec) =
          some (.str "disconnected") ↔ ¬ now - t < CONNECTION_TIMEOUT) ∧
      dlookup "connection_status" (sweepRecord (t + 5) t rec) =
        some (.str "connected") ∧
      dlookup "connection_status" (sweepRecord (t + 20) t rec) =
        some (.str "disconnected") ∧
      dlookup "connection_status" (readRecord (t + 5) (some t) rec) =
        some (.str "connected") ∧
      dlookup "connection_status" (readRecord (t + 20) (some t) rec) =
        some (.str "disconnected") := by
  intro now t rec
  have h5 : t + 5 - t = 5 := by ring
  have h20 : t + 20 - t = 20 := by ring
  have h5lt : (5 : ℚ) < CONNECTION_TIMEOUT := by norm_num [CONNECTION_TIMEOUT]
  have h20ge : ¬ ((20 : ℚ) < CONNECTION_TIMEOUT) := by
    norm_num [CONNECTION_TIMEOUT]
  refine ⟨?_, ?_, ?_, ?_, ?_, ?_, ?_, ?_⟩ <;>
    simp only [sweepRecord_connection_status, readRecord_connection_status,
      h5, h20]
  all_goals split_ifs <;> simp_all

/-- Witness for C3: at elapsed time 5 s (now = 5, last seen at 0) the sweep
marks the record connected. -/
theorem spec_c3_witness :
    dlookup "connection_status" (sweepRecord 5 0 []) =
      some (.str "connected") :=
  ((spec_c3 5 0 []).1).mpr (by norm_num [CONNECTION_TIMEOUT])

/-! ### C1: rejection of payloads with missing required keys -/

/-- The required keys the payload `p` omits (the claim speaks about "the
missing required key(s)"). -/
def missingRequired (p : JDict) : List String :=
  required_keys.filter (fun k => (dlookup k p).isNone)

/-- Claim C1, amended: a payload with a (truthy) `device_id` that omits at
least one required key is rejected, both dictionaries are left unchanged,
and the error message names the full fixed list of the four required keys
(a superset of the missing ones) regardless of which keys are actually
missing. -/
theorem spec_c1 (s : ServerState) (p : JDict) (now : ℚ) (ts : String)
    (dev : Val) (hdev : dlookup "device_id" p = some dev)
    (ht : pyTruthy dev = true)
    (hmiss : missingRequired p ≠ []) :
    receive_data s p now ts = (s, .errMissingKeys required_keys) ∧
    (∀ k ∈ missingRequired p, k ∈ required_keys) := by
  have hnall : ¬ (required_keys.all (fun k => (dlookup k p).isSome) = true) := by
    intro hall
    apply hmiss
    have : ∀ k ∈ required_keys, (dlookup k p).isSome = true :=
      fun k hk => List.all_eq_true.mp hall k hk
    simp only [missingRequired, List.filter_eq_nil_iff]
    intro k hk hnone
    have h2 := this k hk
    rcases Option.isSome_iff_exists.mp h2 with ⟨v, hv⟩
    rw [hv] at hnone
    simp at hnone
  constructor
  · unfold receive_data
    rw [hdev]
    simp [ht, hnall]
  · intro k hk
    exact (List.mem_filter.mp hk).1

/-- Witness for C1: a payload missing only `rpm` is rejected with the store
unchanged. -/
theorem spec_c1_witness :
    dlookup "device_id"
        [("device_id", Val.str "A"), ("speed", Val.num 1),
         ("temp_motor", Val.num 2), ("throttle_pos", Val.num 3)] =
      some (Val.str "A") ∧
    receive_data emptyState
        [("device_id", Val.str "A"), ("speed", Val.num 1),
         ("temp_motor", Val.num 2), ("throttle_pos", Val.num 3)] 0 "TS" =
      (emptyState, .errMissingKeys required_keys) :=
  ⟨by decide,
    (spec_c1 emptyState
      [("device_id", Val.str "A"), ("speed", Val.num 1),
       ("temp_motor", Val.num 2), ("throttle_pos", Val.num 3)] 0 "TS"
      (Val.str "A") (by decide) (by decide) (by decide)).1⟩

/-- Counterexample to C1 as stated: for a payload missing only `rpm` the
missing-key list is `["rpm"]`, but the rejection message names the whole
fixed list `rpm, speed, temp_motor, throttle_pos` — it does not name
exactly the missing key(s). -/
theorem spec_c1_cex :
    missingRequired
        [("device_id", Val.str "A"), ("speed", Val.num 1),
         ("temp_motor", Val.num 2), ("throttle_pos", Val.num 3)] = ["rpm"] ∧
    (receive_data emptyState
        [("device_id", Val.str "A"), ("speed", Val.num 1),
         ("temp_motor", Val.num 2), ("throttle_pos", Val.num 3)] 0 "TS").2 =
      .errMissingKeys ["rpm", "speed", "temp_motor", "throttle_pos"] ∧
    (["rpm", "speed", "temp_motor", "throttle_pos"] : List String) ≠
      ["rpm"] := by
  refine ⟨by decide, by decide, by decide⟩

/-! ### C2: successful ingest -/

theorem copy_extra_cons (base : JDict) (kv : String × Val) (rest : JDict) :
    copy_extra_fields base (kv :: rest) =
      copy_extra_fields
        (if kv.1 = "device_id" ∨ kv.1 ∈ required_keys then base
         else dinsert base kv.1 kv.2) rest := rfl

theorem dlookup_copy_extra_skip (p : JDict) (k : String)
    (hk : k = "device_id" ∨ k ∈ required_keys) :
    ∀ base : JDict, dlookup k (copy_extra_fields base p) = dlookup k base := by
  induction p with
  | nil => intro base; rfl
  | cons kv rest ih =>
      intro base
      rw [copy_extra_cons]
      by_cases hskip : kv.1 = "device_id" ∨ kv.1 ∈ required_keys
      · rw [if_pos hskip]
        exact ih base
      · rw [if_neg hskip, ih, dlookup_dinsert]
        have hne : ¬ kv.1 = k := fun h => hskip (h ▸ hk)
        rw [if_neg hne]

theorem dlookup_copy_extra_absent (p : JDict) (k : String)
    (hk : dlookup k p = none) :
    ∀ base : JDict, dlookup k (copy_extra_fields base p) = dlookup k base := by
  induction p with
  | nil => intro base; rfl
  | cons kv rest ih =>
      intro base
      have hne : ¬ kv.1 = k := by
        intro h
        rw [dlookup_cons, if_pos h] at hk
        exact Option.noConfusion hk
      have hrest : dlookup k rest = none := by
        rw [dlookup_cons, if_neg hne] at hk
        exact hk
      rw [copy_extra_cons]
      by_cases hskip : kv.1 = "device_id" ∨ kv.1 ∈ required_keys
      · rw [if_pos hskip]
        exact ih hrest base
      · rw [if_neg hskip, ih hrest, dlookup_dinsert, if_neg hne]

theorem dlookup_copy_extra_present (p : JDict) (k : String) (v : Val)
    (hnd : (p.map Prod.fst).Nodup) (hk : dlookup k p = some v)
    (hskip : ¬ (k = "device_id" ∨ k ∈ required_keys)) :
    ∀ base : JDict, dlookup k (copy_extra_fields base p) = some v := by
  induction p with
  | nil => simp [dlookup] at hk
  | cons kv rest ih =>
      intro base
      rw [List.map_cons, List.nodup_cons] at hnd
      rw [copy_extra_cons]
      by_cases hkv : kv.1 = k
      · have hv : v = kv.2 := by
          rw [dlookup_cons, if_pos hkv] at hk
          exact (Option.some.injEq _ _ ▸ hk.symm)
        have hrest : dlookup k rest = none := by
          rw [dlookup_eq_none_iff]
          rw [hkv] at hnd
          exact hnd.1
        have hskip2 : ¬ (kv.1 = "device_id" ∨ kv.1 ∈ required_keys) := by
          rw [hkv]; exact hskip
        rw [if_neg hskip2, dlookup_copy_extra_absent rest k hrest,
          dlookup_dinsert, if_pos hkv, hv]
      · have hrest : dlookup k rest = some v := by
          rw [dlookup_cons, if_neg hkv] at hk
          exact hk
        by_cases hskip2 : kv.1 = "device_id" ∨ kv.1 ∈ required_keys
        · rw [if_pos hskip2]
          exact ih hnd.2 hrest base
        · rw [if_neg hskip2]
          exact ih hnd.2 hrest (dinsert base kv.1 kv.2)

/-- The record-dict keys that `receive_data` sets itself after reading the
payload fields; a payload field with one of these names overrides the fixed
value (the copy loop runs after the dict literal is built). -/
def reserved_keys : List String :=
  ["timestamp", "connection_status", "last_seen_seconds", "was_connected"]

theorem receive_data_success (s : ServerState) (p : JDict) (now : ℚ)
    (ts : String) (dev : Val) (hdev : dlookup "device_id" p = some dev)
    (ht : pyTruthy dev = true)
    (hreq : required_keys.all (fun k => (dlookup k p).isSome) = true) :
    receive_data s p now ts =
      ({ latest_data := dinsert s.latest_data dev
           (add_default_fields (copy_extra_fields (base_device_data p ts) p)),
         last_seen := dinsert s.last_seen dev now }, .ok dev) := by
  unfold receive_data
  rw [hdev]
  simp [ht, hreq]

theorem dlookup_add_defaults_ne (dd : JDict) (k : String)
    (h1 : ¬ ("voltage" = k)) (h2 : ¬ ("gear" = k))
    (h3 : ¬ ("fuel_level" = k)) :
    dlookup k (add_default_fields dd) = dlookup k dd := by
  unfold add_default_fields default_fields
  simp only [List.foldl_cons, List.foldl_nil]
  rw [dlookup_dsetdefault_ne _ _ _ h3, dlookup_dsetdefault_ne _ _ _ h2,
    dlookup_dsetdefault_ne _ _ _ h1]

theorem dlookup_add_defaults_voltage (dd : JDict) :
    dlookup "voltage" (add_default_fields dd) =
      if dlookup "voltage" dd = none then some (.num 13.5)
      else dlookup "voltage" dd := by
  unfold add_default_fields default_fields
  simp only [List.foldl_cons, List.foldl_nil]
  rw [dlookup_dsetdefault_ne _ _ _ (by decide),
    dlookup_dsetdefault_ne _ _ _ (by decide)]
  exact dlookup_dsetdefault_self dd "voltage" (.num 13.5)

theorem dlookup_add_defaults_gear (dd : JDict) :
    dlookup "gear" (add_default_fields dd) =
      if dlookup "gear" dd = none then some (.num 0)
      else dlookup "gear" dd := by
  unfold add_default_fields default_fields
  simp only [List.foldl_cons, List.foldl_nil]
  rw [dlookup_dsetdefault_ne _ _ _ (by decide),
    dlookup_dsetdefault_self, dlookup_dsetdefault_ne _ _ _ (by decide)]

theorem dlookup_add_defaults_fuel (dd : JDict) :
    dlookup "fuel_level" (add_default_fields dd) =
      if dlookup "fuel_level" dd = none then some (.num 50)
      else dlookup "fuel_level" dd := by
  unfold add_default_fields default_fields
  simp only [List.foldl_cons, List.foldl_nil]
  rw [dlookup_dsetdefault_self, dlookup_dsetdefault_ne _ _ _ (by decide),
    dlookup_dsetdefault_ne _ _ _ (by decide)]

/-- Claim C2, amended: a successful ingest upserts a record that carries
the four required fields and every additional payload field verbatim, and
whose `timestamp`, `connection_status`, `last_seen_seconds` and
`was_connected` carry the fixed values `ts`/"connected"/0/true whenever the
payload does not itself supply a field of that name (a payload field of one
of those names overrides the fixed value, since the copy loop runs after
they are set); `voltage`, `gear` and `fuel_level` get the defaults
13.5/0/50.0 exactly when the payload omits them; the last-seen time of the
device is set to `now`; all other devices are untouched. -/
theorem spec_c2 (s : ServerState) (p : JDict) (now : ℚ) (ts : String)
    (dev : Val) (hdev : dlookup "device_id" p = some dev)
    (ht : pyTruthy dev = true)
    (hreq : required_keys.all (fun k => (dlookup k p).isSome) = true)
    (hnd : (p.map Prod.fst).Nodup)
    (hres : ∀ k ∈ reserved_keys, dlookup k p = none) :
    (receive_data s p now ts).2 = .ok dev ∧
    ∃ rec : JDict,
      dlookup dev (receive_data s p now ts).1.latest_data = some rec ∧
      (∀ (k : String) (v : Val), k ≠ "device_id" →
        dlookup k p = some v → dlookup k rec = some v) ∧
      dlookup "timestamp" rec = some (.str ts) ∧
      dlookup "connection_status" rec = some (.str "connected") ∧
      dlookup "last_seen_seconds" rec = some (.num 0) ∧
      dlookup "was_connected" rec = some (.bool true) ∧
      (dlookup "voltage" p = none → dlookup "voltage" rec = some (.num 13.5)) ∧
      (dlookup "gear" p = none → dlookup "gear" rec = some (.num 0)) ∧
      (dlookup "fuel_level" p = none →
        dlookup "fuel_level" rec = some (.num 50)) ∧
      dlookup dev (receive_data s p now ts).1.last_seen = some now ∧
      (∀ dv : Val, dv ≠ dev →
        dlookup dv (receive_data s p now ts).1.latest_data =
          dlookup dv s.latest_data ∧
        dlookup dv (receive_data s p now ts).1.last_seen =
          dlookup dv s.last_seen) := by
  have hsucc := receive_data_success s p now ts dev hdev ht hreq
  refine ⟨by rw [hsucc], ?_⟩
  refine ⟨add_default_fields (copy_extra_fields (base_device_data p ts) p),
    ?_, ?_, ?_, ?_, ?_, ?_, ?_, ?_, ?_, ?_, ?_⟩
  · rw [hsucc]
    simp [dlookup_dinsert]
  · intro k v hkdev hkv
    by_cases hkreq : k ∈ required_keys
    · have hno : ¬ ("voltage" = k) ∧ ¬ ("gear" = k) ∧ ¬ ("fuel_level" = k) := by
        simp only [required_keys, List.mem_cons, List.mem_singleton,
          List.not_mem_nil, or_false] at hkreq
        rcases hkreq with h | h | h | h <;> subst h <;>
          exact ⟨by decide, by decide, by decide⟩
      rw [dlookup_add_defaults_ne _ _ hno.1 hno.2.1 hno.2.2,
        dlookup_copy_extra_skip _ _ (Or.inr hkreq)]
      simp only [required_keys, List.mem_cons, List.mem_singleton,
        List.not_mem_nil, or_false] at hkreq
      rcases hkreq with h | h | h | h <;> subst h <;>
        simp [base_device_data, dlookup, hkv]
    · have hnskip : ¬ (k = "device_id" ∨ k ∈ required_keys) := by
        rintro (h | h)
        · exact hkdev h
        · exact hkreq h
      have hc := dlookup_copy_extra_present p k v hnd hkv hnskip
        (base_device_data p ts)
      by_cases hk1 : "voltage" = k
      · subst hk1
        rw [dlookup_add_defaults_voltage, hc]
        simp
      · by_cases hk2 : "gear" = k
        · subst hk2
          rw [dlookup_add_defaults_gear, hc]
          simp
        · by_cases hk3 : "fuel_level" = k
          · subst hk3
            rw [dlookup_add_defaults_fuel, hc]
            simp
          · rw [dlookup_add_defaults_ne _ _ hk1 hk2 hk3]
            exact hc
  · have hts := hres "timestamp" (by decide)
    rw [dlookup_add_defaults_ne _ _ (by decide) (by decide) (by decide),
      dlookup_copy_extra_absent p _ hts]
    simp [base_device_data, dlookup]
  · have hcs := hres "connection_status" (by decide)
    rw [dlookup_add_defaults_ne _ _ (by decide) (by decide) (by decide),
      dlookup_copy_extra_absent p _ hcs]
    simp [base_device_data, dlookup]
  · have hls := hres "last_seen_seconds" (by decide)
    rw [dlookup_add_defaults_ne _ _ (by decide) (by decide) (by decide),
      dlookup_copy_extra_absent p _ hls]
    simp [base_device_data, dlookup]
  · have hwc := hres "was_connected" (by decide)
    rw [dlookup_add_defaults_ne _ _ (by decide) (by decide) (by decide),
      dlookup_copy_extra_absent p _ hwc]
    simp [base_device_data, dlookup]
  · intro hv
    have hC : dlookup "voltage"
        (copy_extra_fields (base_device_data p ts) p) = none := by
      rw [dlookup_copy_extra_absent p _ hv]
      simp [base_device_data, dlookup]
    rw [dlookup_add_defaults_voltage, hC]
    simp
  · intro hg
    have hC : dlookup "gear"
        (copy_extra_fields (base_device_data p ts) p) = none := by
      rw [dlookup_copy_extra_absent p _ hg]
      simp [base_device_data, dlookup]
    rw [dlookup_add_defaults_gear, hC]
    simp
  · intro hf
    have hC : dlookup "fuel_level"
        (copy_extra_fields (base_device_data p ts) p) = none := by
      rw [dlookup_copy_extra_absent p _ hf]
      simp [base_device_data, dlookup]
    rw [dlookup_add_defaults_fuel, hC]
    simp
  · rw [hsucc]
    simp [dlookup_dinsert]
  · intro dv hdv
    have hne : ¬ dev = dv := fun h => hdv h.symm
    rw [hsucc]
    constructor <;> simp [dlookup_dinsert, hne]

/-- Witness for C2: the spec scenario `{device_id:"CAR_A", rpm:2500,
speed:60, temp_motor:90, throttle_pos:40}` is stored with the ingest
defaults and fixed connection fields. -/
theorem spec_c2_witness :
    (receive_data emptyState
        [("device_id", Val.str "CAR_A"), ("rpm", Val.num 2500),
         ("speed", Val.num 60), ("temp_motor", Val.num 90),
         ("throttle_pos", Val.num 40)] 0 "TS").2 = .ok (.str "CAR_A") ∧
    ∃ rec : JDict,
      dlookup (Val.str "CAR_A")
          (receive_data emptyState
            [("device_id", Val.str "CAR_A"), ("rpm", Val.num 2500),
             ("speed", Val.num 60), ("temp_motor", Val.num 90),
             ("throttle_pos", Val.num 40)] 0 "TS").1.latest_data = some rec ∧
      dlookup "voltage" rec = some (.num 13.5) ∧
      dlookup "gear" rec = some (.num 0) ∧
      dlookup "fuel_level" rec = some (.num 50) ∧
      dlookup "connection_status" rec = some (.str "connected") ∧
      dlookup "last_seen_seconds" rec = some (.num 0) := by
  have h := spec_c2 emptyState
    [("device_id", Val.str "CAR_A"), ("rpm", Val.num 2500),
     ("speed", Val.num 60), ("temp_motor", Val.num 90),
     ("throttle_pos", Val.num 40)] 0 "TS" (Val.str "CAR_A")
    (by decide) (by decide) (by decide) (by decide) (by decide)
  obtain ⟨hok, rec, hrec, hverb, hts2, hcs, hlss, hwc, hvol, hgear, hfuel,
    hlast, hother⟩ := h
  exact ⟨hok, rec, hrec, hvol (by decide), hgear (by decide),
    hfuel (by decide), hcs, hlss⟩

/-- Counterexample to C2 as stated: a valid payload that additionally
carries a `connection_status` field is ingested successfully, but the
stored record's `connection_status` is the payload value `"x"`, not
`"connected"` — the copy loop overwrites the fixed value. -/
theorem spec_c2_cex :
    (receive_data emptyState
        [("device_id", Val.str "CAR_A"), ("rpm", Val.num 2500),
         ("speed", Val.num 60), ("temp_motor", Val.num 90),
         ("throttle_pos", Val.num 40),
         ("connection_status", Val.str "x")] 0 "TS").2 =
      .ok (.str "CAR_A") ∧
    ((dlookup (Val.str "CAR_A")
        (receive_data emptyState
          [("device_id", Val.str "CAR_A"), ("rpm", Val.num 2500),
           ("speed", Val.num 60), ("temp_motor", Val.num 90),
           ("throttle_pos", Val.num 40),
           ("connection_status", Val.str "x")] 0 "TS").1.latest_data).map
      (fun rec => dlookup "connection_status" rec)) =
        some (some (.str "x")) ∧
    some (some (Val.str "x")) ≠ some (some (Val.str "connected")) := by
  refine ⟨by decide, by decide, by decide⟩

/-! ### C9: the sweep only touches derived display fields -/

/-- The derived display fields the sweep recomputes. -/
def derived_keys : List String :=
  ["connection_status", "last_seen_seconds", "was_connected"]

theorem sweepRecord_preserves (now t : ℚ) (rec : JDict) (k : String)
    (h1 : ¬ ("connection_status" = k)) (h2 : ¬ ("last_seen_seconds" = k))
    (h3 : ¬ ("was_connected" = k)) :
    dlookup k (sweepRecord now t rec) = dlookup k rec := by
  unfold sweepRecord
  split_ifs <;> simp [apply_ite (dlookup k), dlookup_dinsert, h1, h2, h3]

theorem sweepApply_preserves (now : ℚ) (ls : List (Val × ℚ)) (id : Val)
    (rec : JDict) (k : String)
    (h1 : ¬ ("connection_status" = k)) (h2 : ¬ ("last_seen_seconds" = k))
    (h3 : ¬ ("was_connected" = k)) :
    dlookup k (sweepApply now ls id rec) = dlookup k rec := by
  unfold sweepApply
  cases hi : dlookup id ls <;>
    simp [hi, sweepRecord_preserves now _ rec k h1 h2 h3]

theorem sweepApply_connection_status (now : ℚ) (ls : List (Val × ℚ))
    (id : Val) (rec : JDict) :
    dlookup "connection_status" (sweepApply now ls id rec) =
      match dlookup id ls with
      | some t => some (.str (if now - t < CONNECTION_TIMEOUT then "connected"
          else "disconnected"))
      | none => dlookup "connection_status" rec := by
  unfold sweepApply
  cases hi : dlookup id ls <;> simp [hi, sweepRecord_connection_status]

theorem sweepApply_cs_idem (now : ℚ) (ls : List (Val × ℚ)) (id : Val)
    (rec : JDict) :
    dlookup "connection_status"
        (sweepApply now ls id (sweepApply now ls id rec)) =
      dlookup "connection_status" (sweepApply now ls id rec) := by
  rw [sweepApply_connection_status, sweepApply_connection_status]
  cases hi : dlookup id ls with
  | none => simp [sweepApply, hi]
  | some t => rfl

theorem check_lookup (now : ℚ) (s : ServerState) (id : Val) :
    dlookup id (check_connection_status now s).latest_data =
      (dlookup id s.latest_data).map (sweepApply now s.last_seen id) := by
  unfold check_connection_status
  exact dlookup_map_keyed _ _ _

/-- Claim C9: one sweep pass leaves `last_seen` unchanged, neither adds nor
removes a record (the key list of `latest_data` is unchanged), changes no
record field other than the derived `connection_status`,
`last_seen_seconds` and `was_connected`, and a second sweep at the same
instant gives every record the same `connection_status` as the first. -/
theorem spec_c9 :
    ∀ (now : ℚ) (s : ServerState),
      (check_connection_status now s).last_seen = s.last_seen ∧
      (check_connection_status now s).latest_data.map Prod.fst =
        s.latest_data.map Prod.fst ∧
      (∀ (id : Val) (k : String), k ∉ derived_keys →
        (dlookup id (check_connection_status now s).latest_data).map
            (fun rec => dlookup k rec) =
          (dlookup id s.latest_data).map (fun rec => dlookup k rec)) ∧
      (∀ id : Val,
        (dlookup id
            (check_connection_status now
              (check_connection_status now s)).latest_data).map
            (fun rec => dlookup "connection_status" rec) =
          (dlookup id (check_connection_status now s).latest_data).map
            (fun rec => dlookup "connection_status" rec)) := by
  intro now s
  refine ⟨rfl, ?_, ?_, ?_⟩
  · unfold check_connection_status
    rw [List.map_map]
    rfl
  · intro id k hk
    have h1 : ¬ ("connection_status" = k) :=
      fun h => hk (h ▸ (by decide : "connection_status" ∈ derived_keys))
    have h2 : ¬ ("last_seen_seconds" = k) :=
      fun h => hk (h ▸ (by decide : "last_seen_seconds" ∈ derived_keys))
    have h3 : ¬ ("was_connected" = k) :=
      fun h => hk (h ▸ (by decide : "was_connected" ∈ derived_keys))
    rw [check_lookup]
    cases ho : dlookup id s.latest_data <;>
      simp [ho, sweepApply_preserves now s.last_seen id _ k h1 h2 h3]
  · intro id
    have hls : (check_connection_status now s).last_seen = s.last_seen := rfl
    rw [check_lookup, check_lookup, hls]
    cases ho : dlookup id s.latest_data with
    | none => rfl
    | some rec =>
        show some (dlookup "connection_status"
            (sweepApply now s.last_seen id
              (sweepApply now s.last_seen id rec))) =
          some (dlookup "connection_status" (sweepApply now s.last_seen id rec))
        exact congrArg some (sweepApply_cs_idem now s.last_seen id rec)

/-- Witness for C9: a sweep at time 3 does not change the `rpm` field of a
stored record. -/
theorem spec_c9_witness :
    (dlookup (Val.str "A")
        (check_connection_status 3
          ⟨[(.str "A", [("rpm", Val.num 1)])], [(.str "A", 0)]⟩).latest_data).map
        (fun rec => dlookup "rpm" rec) =
      (dlookup (Val.str "A")
        (ServerState.mk [(.str "A", [("rpm", Val.num 1)])]
          [(.str "A", 0)]).latest_data).map (fun rec => dlookup "rpm" rec) :=
  (spec_c9 3 ⟨[(.str "A", [("rpm", Val.num 1)])], [(.str "A", 0)]⟩).2.2.1
    (Val.str "A") "rpm" (by decide)

/-! ### C5: explicit eviction of disconnected devices -/

/-- Claim C5: `remove_disconnected_devices` removes exactly the stored
devices whose elapsed time strictly exceeds the 15-second timeout — each
removed id disappears from both dictionaries, every other id keeps its
entries in both dictionaries unchanged, and the returned list is exactly
the removed ids. -/
theorem spec_c5 :
    ∀ (now : ℚ) (s : ServerState),
      (∀ id : Val,
        id ∈ (remove_disconnected_devices now s).2 ↔
          ((dlookup id s.latest_data).isSome = true ∧
            ∃ t : ℚ, dlookup id s.last_seen = some t ∧
              CONNECTION_TIMEOUT < now - t)) ∧
      (∀ id : Val, id ∈ (remove_disconnected_devices now s).2 →
        dlookup id (remove_disconnected_devices now s).1.latest_data = none ∧
        dlookup id (remove_disconnected_devices now s).1.last_seen = none) ∧
      (∀ id : Val, id ∉ (remove_disconnected_devices now s).2 →
        dlookup id (remove_disconnected_devices now s).1.latest_data =
          dlookup id s.latest_data ∧
        dlookup id (remove_disconnected_devices now s).1.last_seen =
          dlookup id s.last_seen) := by
  intro now s
  have hsnd : (remove_disconnected_devices now s).2 = devices_to_remove now s :=
    rfl
  have hlat : (remove_disconnected_devices now s).1.latest_data =
      (devices_to_remove now s).foldl (fun d i => derase i d) s.latest_data :=
    rfl
  have hls : (remove_disconnected_devices now s).1.last_seen =
      (devices_to_remove now s).foldl (fun d i => derase i d) s.last_seen :=
    rfl
  refine ⟨?_, ?_, ?_⟩
  · intro id
    rw [hsnd]
    unfold devices_to_remove
    rw [List.mem_filter, ← dlookup_isSome_iff_mem_keys]
    cases hi : dlookup id s.last_seen with
    | none => simp [hi]
    | some t => simp [hi]
  · intro id him
    rw [hsnd] at him
    constructor
    · rw [hlat, dlookup_foldl_derase, if_pos him]
    · rw [hls, dlookup_foldl_derase, if_pos him]
  · intro id him
    rw [hsnd] at him
    constructor
    · rw [hlat, dlookup_foldl_derase, if_neg him]
    · rw [hls, dlookup_foldl_derase, if_neg him]

/-- Witness for C5: at time 20, a device last seen at 0 (elapsed 20 > 15)
is removed while a device last seen at 16 (elapsed 4) keeps its record. -/
theorem spec_c5_witness :
    dlookup (Val.str "A")
        (remove_disconnected_devices 20
          ⟨[(.str "A", [("rpm", Val.num 1)]), (.str "B", [("rpm", Val.num 2)])],
           [(.str "A", 0), (.str "B", 16)]⟩).1.latest_data = none ∧
    dlookup (Val.str "B")
        (remove_disconnected_devices 20
          ⟨[(.str "A", [("rpm", Val.num 1)]), (.str "B", [("rpm", Val.num 2)])],
           [(.str "A", 0), (.str "B", 16)]⟩).1.latest_data =
      dlookup (Val.str "B")
        (ServerState.mk
          [(.str "A", [("rpm", Val.num 1)]), (.str "B", [("rpm", Val.num 2)])]
          [(.str "A", 0), (.str "B", 16)]).latest_data :=
  by
  have hiffA := (spec_c5 20
    ⟨[(.str "A", [("rpm", Val.num 1)]), (.str "B", [("rpm", Val.num 2)])],
     [(.str "A", 0), (.str "B", 16)]⟩).1 (Val.str "A")
  have hmemA : Val.str "A" ∈ (remove_disconnected_devices 20
      ⟨[(.str "A", [("rpm", Val.num 1)]), (.str "B", [("rpm", Val.num 2)])],
       [(.str "A", 0), (.str "B", 16)]⟩).2 :=
    hiffA.mpr ⟨by decide, 0, by decide, by norm_num [CONNECTION_TIMEOUT]⟩
  have hmemB : Val.str "B" ∉ (remove_disconnected_devices 20
      ⟨[(.str "A", [("rpm", Val.num 1)]), (.str "B", [("rpm", Val.num 2)])],
       [(.str "A", 0), (.str "B", 16)]⟩).2 := by
    intro hmem
    obtain ⟨hsome, t, hlook, hlt⟩ := ((spec_c5 20
      ⟨[(.str "A", [("rpm", Val.num 1)]), (.str "B", [("rpm", Val.num 2)])],
       [(.str "A", 0), (.str "B", 16)]⟩).1 (Val.str "B")).mp hmem
    have h16 : dlookup (Val.str "B")
        (ServerState.mk
          [(.str "A", [("rpm", Val.num 1)]), (.str "B", [("rpm", Val.num 2)])]
          [(.str "A", 0), (.str "B", 16)]).last_seen = some 16 := by decide
    have ht : (16 : ℚ) = t := Option.some.inj (h16.symm.trans hlook)
    rw [← ht] at hlt
    norm_num [CONNECTION_TIMEOUT] at hlt
  exact ⟨((spec_c5 20
      ⟨[(.str "A", [("rpm", Val.num 1)]), (.str "B", [("rpm", Val.num 2)])],
       [(.str "A", 0), (.str "B", 16)]⟩).2.1 _ hmemA).1,
    ((spec_c5 20
      ⟨[(.str "A", [("rpm", Val.num 1)]), (.str "B", [("rpm", Val.num 2)])],
       [(.str "A", 0), (.str "B", 16)]⟩).2.2 _ hmemB).1⟩

/-! ### C10: the two dictionaries always hold the same device ids -/

/-- The two dictionaries have the same key set. -/
def DomInv (s : ServerState) : Prop :=
  ∀ id : Val,
    (dlookup id s.latest_data).isSome = true ↔
      (dlookup id s.last_seen).isSome = true

theorem receive_data_fst_cases (s : ServerState) (p : JDict) (now : ℚ)
    (ts : String) :
    (receive_data s p now ts).1 = s ∨
    ∃ dev : Val, dlookup "device_id" p = some dev ∧
      (receive_data s p now ts).1 =
        { latest_data := dinsert s.latest_data dev
            (add_default_fields (copy_extra_fields (base_device_data p ts) p)),
          last_seen := dinsert s.last_seen dev now } := by
  unfold receive_data
  cases hdev : dlookup "device_id" p with
  | none => exact Or.inl rfl
  | some dev =>
      by_cases ht : pyTruthy dev
      · by_cases hreq : (required_keys.all fun k => (dlookup k p).isSome) = true
        · exact Or.inr ⟨dev, rfl, by simp [ht, hreq]⟩
        · exact Or.inl (by simp [ht, hreq])
      · exact Or.inl (by simp [ht])

theorem domInv_applyOp (s : ServerState) (op : Op) (h : DomInv s) :
    DomInv (applyOp s op) := by
  cases op with
  | ingest p now ts =>
      show DomInv (receive_data s p now ts).1
      rcases receive_data_fst_cases s p now ts with hcase | ⟨dev, hdev, hcase⟩
      · rw [hcase]; exact h
      · rw [hcase]
        intro id
        simp only [dlookup_dinsert]
        by_cases hdv : dev = id <;> simp [hdv, h id]
  | sweep now =>
      intro id
      show (dlookup id (check_connection_status now s).latest_data).isSome =
          true ↔ (dlookup id s.last_seen).isSome = true
      rw [check_lookup]
      cases ho : dlookup id s.latest_data <;> simp [ho, ← h id]
  | removeDisc now =>
      intro id
      show (dlookup id (remove_disconnected_devices now s).1.latest_data).isSome
          = true ↔
        (dlookup id (remove_disconnected_devices now s).1.last_seen).isSome =
          true
      have hlat : (remove_disconnected_devices now s).1.latest_data =
          (devices_to_remove now s).foldl (fun d i => derase i d)
            s.latest_data := rfl
      have hls : (remove_disconnected_devices now s).1.last_seen =
          (devices_to_remove now s).foldl (fun d i => derase i d)
            s.last_seen := rfl
      rw [hlat, hls, dlookup_foldl_derase, dlookup_foldl_derase]
      by_cases hmem : id ∈ devices_to_remove now s <;> simp [hmem, h id]
  | removeAll =>
      intro id
      simp [applyOp, remove_all, dlookup]

theorem domInv_run (ops : List Op) : DomInv (run ops) := by
  have hbase : DomInv emptyState := by
    intro id
    simp [emptyState, dlookup]
  suffices h : ∀ s, DomInv s → DomInv (ops.foldl applyOp s) from h _ hbase
  induction ops with
  | nil => intro s hs; exact hs
  | cons op rest ih =>
      intro s hs
      exact ih _ (domInv_applyOp s op hs)

/-- Claim C10: after any sequence of operations starting from the empty
store, `latest_data` and `last_seen` hold exactly the same device ids, and
consequently every `/status` entry carries a non-null `last_seen` — the
`connected=false, last_seen=null` branch is unreachable. -/
theorem spec_c10 :
    ∀ ops : List Op,
      (∀ id : Val,
        (dlookup id (run ops).latest_data).isSome = true ↔
          (dlookup id (run ops).last_seen).isSome = true) ∧
      (∀ now : ℚ,
        (get_status now (run ops)).all
          (fun e => decide (e.2.2.1 ≠ none)) = true) := by
  intro ops
  refine ⟨domInv_run ops, ?_⟩
  intro now
  rw [List.all_eq_true]
  intro e he
  unfold get_status at he
  rw [List.mem_map] at he
  obtain ⟨a, ha, hae⟩ := he
  have hsome : (dlookup a.1 (run ops).latest_data).isSome = true := by
    rw [dlookup_isSome_iff_mem_keys]
    exact List.mem_map_of_mem Prod.fst ha
  have hls := (domInv_run ops a.1).mp hsome
  obtain ⟨t, htls⟩ := Option.isSome_iff_exists.mp hls
  rw [← hae]
  simp [htls]

/-- Witness for C10: after one concrete ingest, every `/status` entry at
time 3 has a non-null `last_seen`. -/
theorem spec_c10_witness :
    (get_status 3
        (run [Op.ingest
          [("device_id", Val.str "CAR_A"), ("rpm", Val.num 2500),
           ("speed", Val.num 60), ("temp_motor", Val.num 90),
           ("throttle_pos", Val.num 40)] 0 "TS"])).all
      (fun e => decide (e.2.2.1 ≠ none)) = true :=
  (spec_c10 [Op.ingest
    [("device_id", Val.str "CAR_A"), ("rpm", Val.num 2500),
     ("speed", Val.num 60), ("temp_motor", Val.num 90),
     ("throttle_pos", Val.num 40)] 0 "TS"]).2 3

/-! ### C4: the sticky `was_connected` marker -/

/-- An operation whose payload (if any) does not itself carry a
`was_connected` field. -/
def op_no_wc : Op → Prop
  | .ingest p _ _ => dlookup "was_connected" p = none
  | _ => True

/-- Every stored record carries `was_connected = true`. -/
def WcInv (s : ServerState) : Prop :=
  ∀ (id : Val) (rec : JDict), dlookup id s.latest_data = some rec →
    dlookup "was_connected" rec = some (.bool true)

theorem sweepRecord_was_connected (now t : ℚ) (rec : JDict) :
    dlookup "was_connected" (sweepRecord now t rec) =
      if CONNECTION_TIMEOUT * 4 < now - t then
        (if dlookup "was_connected" rec = none then some (.bool true)
         else dlookup "was_connected" rec)
      else dlookup "was_connected" rec := by
  unfold sweepRecord
  have hr : ∀ v1 v2 : Val,
      dlookup "was_connected"
        (dinsert (dinsert rec "connection_status" v1) "last_seen_seconds" v2) =
      dlookup "was_connected" rec := by
    intro v1 v2
    simp [dlookup_dinsert]
  split_ifs with h1 h2 h3 <;>
    simp_all [dlookup_dinsert]

theorem wcInv_applyOp (s : ServerState) (op : Op) (hop : op_no_wc op)
    (h : WcInv s) : WcInv (applyOp s op) := by
  cases op with
  | ingest p now ts =>
      show WcInv (receive_data s p now ts).1
      rcases receive_data_fst_cases s p now ts with hcase | ⟨dev, hdev, hcase⟩
      · rw [hcase]; exact h
      · rw [hcase]
        intro id rec hrec
        rw [dlookup_dinsert] at hrec
        by_cases hdv : dev = id
        · rw [if_pos hdv] at hrec
          have hrec2 := Option.some.inj hrec
          subst hrec2
          have hwcp : dlookup "was_connected" p = none := hop
          rw [dlookup_add_defaults_ne _ _ (by decide) (by decide) (by decide),
            dlookup_copy_extra_absent p _ hwcp]
          simp [base_device_data, dlookup]
        · rw [if_neg hdv] at hrec
          exact h id rec hrec
  | sweep now =>
      intro id rec hrec
      rw [show applyOp s (.sweep now) = check_connection_status now s from rfl,
        check_lookup] at hrec
      cases ho : dlookup id s.latest_data with
      | none => rw [ho] at hrec; simp at hrec
      | some rec0 =>
          rw [ho] at hrec
          have hrec2 : sweepApply now s.last_seen id rec0 = rec :=
            Option.some.inj hrec
          subst hrec2
          have h0 := h id rec0 ho
          unfold sweepApply
          cases hi : dlookup id s.last_seen with
          | none => exact h0
          | some t =>
              rw [sweepRecord_was_connected, h0]
              split_ifs <;> simp
  | removeDisc now =>
      intro id rec hrec
      have hlat : (applyOp s (.removeDisc now)).latest_data =
          (devices_to_remove now s).foldl (fun d i => derase i d)
            s.latest_data := rfl
      rw [hlat, dlookup_foldl_derase] at hrec
      by_cases hmem : id ∈ devices_to_remove now s
      · rw [if_pos hmem] at hrec
        exact Option.noConfusion hrec
      · rw [if_neg hmem] at hrec
        exact h id rec hrec
  | removeAll =>
      intro id rec hrec
      simp [applyOp, remove_all, dlookup] at hrec

/-- Claim C4, amended: provided no ingest payload itself supplies a
`was_connected` field, every stored record carries `was_connected = true`
from the moment it is created — in particular it is true whenever the
elapsed silence exceeds 4x the timeout (60 s) — and no operation (sweep,
further ingest, eviction) ever clears it while the record exists.  (The
sweep's own marker assignment is dead code for such records: `receive_data`
already sets the marker on every ingest.  A payload that does supply
`was_connected` overrides the marker verbatim.) -/
theorem spec_c4 (ops : List Op) (hops : ∀ op ∈ ops, op_no_wc op) :
    ∀ (id : Val) (rec : JDict),
      dlookup id (run ops).latest_data = some rec →
      dlookup "was_connected" rec = some (.bool true) := by
  have hbase : WcInv emptyState := by
    intro id rec hrec
    simp [emptyState, dlookup] at hrec
  suffices h : ∀ (l : List Op) (s : ServerState), (∀ op ∈ l, op_no_wc op) →
      WcInv s → WcInv (l.foldl applyOp s) from h ops emptyState hops hbase
  intro l
  induction l with
  | nil => intro s _ hs; exact hs
  | cons op rest ih =>
      intro s hl hs
      exact ih _ (fun o ho => hl o (List.mem_cons_of_mem op ho))
        (wcInv_applyOp s op (hl op (List.mem_cons_self op rest)) hs)

/-- Witness for C4: a normal ingest (payload without `was_connected`)
leaves a record whose marker is true. -/
theorem spec_c4_witness :
    dlookup "was_connected"
        [("rpm", Val.num 2500), ("speed", Val.num 60),
         ("temp_motor", Val.num 90), ("throttle_pos", Val.num 40),
         ("timestamp", Val.str "TS"), ("connection_status", Val.str "connected"),
         ("last_seen_seconds", Val.num 0), ("was_connected", Val.bool true),
         ("voltage", Val.num 13), ("gear", Val.num 3),
         ("fuel_level", Val.num 80)] = some (.bool true) :=
  spec_c4
    [.ingest
      [("device_id", Val.str "CAR_A"), ("rpm", Val.num 2500),
       ("speed", Val.num 60), ("temp_motor", Val.num 90),
       ("throttle_pos", Val.num 40), ("voltage", Val.num 13),
       ("gear", Val.num 3), ("fuel_level", Val.num 80)] 0 "TS"]
    (by
      intro op hop
      rcases List.mem_singleton.mp hop with rfl
      show dlookup "was_connected"
        [("device_id", Val.str "CAR_A"), ("rpm", Val.num 2500),
         ("speed", Val.num 60), ("temp_motor", Val.num 90),
         ("throttle_pos", Val.num 40), ("voltage", Val.num 13),
         ("gear", Val.num 3), ("fuel_level", Val.num 80)] = none
      decide)
    (.str "CAR_A")
    [("rpm", Val.num 2500), ("speed", Val.num 60),
     ("temp_motor", Val.num 90), ("throttle_pos", Val.num 40),
     ("timestamp", Val.str "TS"), ("connection_status", Val.str "connected"),
     ("last_seen_seconds", Val.num 0), ("was_connected", Val.bool true),
     ("voltage", Val.num 13), ("gear", Val.num 3),
     ("fuel_level", Val.num 80)]
    (by decide)

/-- Counterexample to C4 as stated: a payload that itself carries
`was_connected: false` produces a record whose marker is false, and the
sweep does not set it to true even at elapsed 70 s > 60 s (the marker key
is present, so the sweep's `not in` guard skips it). -/
theorem spec_c4_cex :
    ((dlookup (Val.str "A")
        (run [Op.ingest
            [("device_id", Val.str "A"), ("rpm", Val.num 1),
             ("speed", Val.num 2), ("temp_motor", Val.num 3),
             ("throttle_pos", Val.num 4), ("was_connected", Val.bool false),
             ("voltage", Val.num 13), ("gear", Val.num 3),
             ("fuel_level", Val.num 80)]
            0 "t", Op.sweep 70]).latest_data).map
        (fun rec => dlookup "was_connected" rec)) =
      some (some (.bool false)) ∧
    CONNECTION_TIMEOUT * 4 < 70 - 0 ∧
    some (some (Val.bool false)) ≠ some (some (Val.bool true)) := by
  refine ⟨?_, by norm_num [CONNECTION_TIMEOUT], by decide⟩
  have hrun : run [Op.ingest
      [("device_id", Val.str "A"), ("rpm", Val.num 1),
       ("speed", Val.num 2), ("temp_motor", Val.num 3),
       ("throttle_pos", Val.num 4), ("was_connected", Val.bool false),
       ("voltage", Val.num 13), ("gear", Val.num 3),
       ("fuel_level", Val.num 80)]
      0 "t", Op.sweep 70] =
      check_connection_status 70
        (receive_data emptyState
          [("device_id", Val.str "A"), ("rpm", Val.num 1),
           ("speed", Val.num 2), ("temp_motor", Val.num 3),
           ("throttle_pos", Val.num 4), ("was_connected", Val.bool false),
           ("voltage", Val.num 13), ("gear", Val.num 3),
           ("fuel_level", Val.num 80)]
          0 "t").1 := rfl
  rw [hrun, check_lookup]
  have hlat : dlookup (Val.str "A")
      (receive_data emptyState
        [("device_id", Val.str "A"), ("rpm", Val.num 1),
         ("speed", Val.num 2), ("temp_motor", Val.num 3),
         ("throttle_pos", Val.num 4), ("was_connected", Val.bool false),
         ("voltage", Val.num 13), ("gear", Val.num 3),
         ("fuel_level", Val.num 80)]
        0 "t").1.latest_data =
      some [("rpm", Val.num 1), ("speed", Val.num 2),
        ("temp_motor", Val.num 3), ("throttle_pos", Val.num 4),
        ("timestamp", Val.str "t"), ("connection_status", Val.str "connected"),
        ("last_seen_seconds", Val.num 0), ("was_connected", Val.bool false),
        ("voltage", Val.num 13), ("gear", Val.num 3),
        ("fuel_level", Val.num 80)] := by decide
  have hls : dlookup (Val.str "A")
      (receive_data emptyState
        [("device_id", Val.str "A"), ("rpm", Val.num 1),
         ("speed", Val.num 2), ("temp_motor", Val.num 3),
         ("throttle_pos", Val.num 4), ("was_connected", Val.bool false),
         ("voltage", Val.num 13), ("gear", Val.num 3),
         ("fuel_level", Val.num 80)]
        0 "t").1.last_seen = some 0 := by decide
  rw [hlat]
  show some (dlookup "was_connected"
      (sweepApply 70
        (receive_data emptyState
          [("device_id", Val.str "A"), ("rpm", Val.num 1),
           ("speed", Val.num 2), ("temp_motor", Val.num 3),
           ("throttle_pos", Val.num 4), ("was_connected", Val.bool false),
           ("voltage", Val.num 13), ("gear", Val.num 3),
           ("fuel_level", Val.num 80)]
          0 "t").1.last_seen (Val.str "A")
        [("rpm", Val.num 1), ("speed", Val.num 2),
         ("temp_motor", Val.num 3), ("throttle_pos", Val.num 4),
         ("timestamp", Val.str "t"), ("connection_status", Val.str "connected"),
         ("last_seen_seconds", Val.num 0), ("was_connected", Val.bool false),
         ("voltage", Val.num 13), ("gear", Val.num 3),
         ("fuel_level", Val.num 80)])) = some (some (.bool false))
  unfold sweepApply
  rw [hls, sweepRecord_was_connected]
  have hwc1 : dlookup "was_connected"
      [("rpm", Val.num 1), ("speed", Val.num 2),
       ("temp_motor", Val.num 3), ("throttle_pos", Val.num 4),
       ("timestamp", Val.str "t"), ("connection_status", Val.str "connected"),
       ("last_seen_seconds", Val.num 0), ("was_connected", Val.bool false),
       ("voltage", Val.num 13), ("gear", Val.num 3),
       ("fuel_level", Val.num 80)] = some (.bool false) := by decide
  rw [hwc1]
  split_ifs <;> simp_all

/-! ### C6: generated samples stay inside the profile bounds -/

theorem pyInt_clamp_bounds (lo hi x : ℚ) (hlo : 0 ≤ lo) (hlohi : lo ≤ hi)
    (hloint : ∃ z : ℤ, (z : ℚ) = lo) :
    lo ≤ (pyInt (max lo (min hi x)) : ℚ) ∧
      (pyInt (max lo (min hi x)) : ℚ) ≤ hi := by
  set y := max lo (min hi x) with hy
  have hy1 : lo ≤ y := le_max_left _ _
  have hy2 : y ≤ hi := max_le hlohi (min_le_left hi x)
  have hy0 : 0 ≤ y := le_trans hlo hy1
  have hfl : pyInt y = ⌊y⌋ := if_pos hy0
  obtain ⟨z, hz⟩ := hloint
  constructor
  · rw [hfl, ← hz]
    have : z ≤ ⌊y⌋ := Int.le_floor.mpr (by rw [hz]; exact hy1)
    exact_mod_cast this
  · rw [hfl]
    exact le_trans (Int.floor_le y) hy2

theorem pyRound_le_add_half (x : ℚ) : (pyRound x : ℚ) ≤ x + 1/2 := by
  unfold pyRound
  dsimp only
  have hn : (⌊x⌋ : ℚ) ≤ x := Int.floor_le x
  have hf1 : x - ⌊x⌋ < 1 := by
    have := Int.lt_floor_add_one x
    linarith
  split_ifs with h1 h2 h3 <;> push_cast <;> linarith

theorem pyRound_nonneg (x : ℚ) (h : 0 ≤ x) : 0 ≤ pyRound x := by
  unfold pyRound
  dsimp only
  have hn : 0 ≤ ⌊x⌋ := Int.le_floor.mpr (by exact_mod_cast h)
  split_ifs <;> omega

theorem pyRound_le_int (x : ℚ) (z : ℤ) (h : x ≤ z) : pyRound x ≤ z := by
  have h1 := pyRound_le_add_half x
  have h2 : (pyRound x : ℚ) < (z : ℚ) + 1 := by linarith
  have h3 : pyRound x < z + 1 := by exact_mod_cast h2
  omega

theorem round1_clamp_bounds (m x : ℚ) (hm : 0 ≤ m)
    (hint : ∃ z : ℤ, (z : ℚ) = 10 * m) :
    0 ≤ round1 (max 0 (min m x)) ∧ round1 (max 0 (min m x)) ≤ m := by
  set y := max 0 (min m x) with hy
  have hy0 : 0 ≤ y := le_max_left _ _
  have hym : y ≤ m := max_le hm (min_le_left m x)
  obtain ⟨z, hz⟩ := hint
  unfold round1
  constructor
  · have h0 : 0 ≤ pyRound (10 * y) := pyRound_nonneg _ (by linarith)
    have h0q : (0 : ℚ) ≤ (pyRound (10 * y) : ℚ) := by exact_mod_cast h0
    linarith
  · have h1 : pyRound (10 * y) ≤ z := pyRound_le_int _ z (by rw [hz]; linarith)
    have h1q : (pyRound (10 * y) : ℚ) ≤ (z : ℚ) := by exact_mod_cast h1
    rw [hz] at h1q
    linarith

/-- The bounds on one emitted sample.  They come from the final clamps of
`generate_realistic_data` alone, so they hold for every state and every
draws — which is what lets the multi-tick claim go through without any
invariant on the evolving state. -/
theorem generate_realistic_data_bounds (vt : VehicleType) (did ts : String)
    (st : SimState) (d : Draws) (ct : ℚ) :
    ((vehicle_config vt).rpm_lo ≤
        ((generate_realistic_data vt did ts st d ct).1.rpm : ℚ) ∧
      ((generate_realistic_data vt did ts st d ct).1.rpm : ℚ) ≤
        (vehicle_config vt).rpm_hi) ∧
    (0 ≤ (generate_realistic_data vt did ts st d ct).1.speed ∧
      (generate_realistic_data vt did ts st d ct).1.speed ≤
        (vehicle_config vt).speed_hi) := by
  have hrpm : (generate_realistic_data vt did ts st d ct).1.rpm =
      pyInt (max (vehicle_config vt).rpm_lo
        (min (vehicle_config vt).rpm_hi (rpmPre vt st d ct))) := rfl
  have hspeed : (generate_realistic_data vt did ts st d ct).1.speed =
      round1 (max 0 (min (vehicle_config vt).speed_hi
        (speedPre vt st d ct))) := rfl
  rw [hrpm, hspeed]
  cases vt
  · exact ⟨pyInt_clamp_bounds 800 3500 _ (by norm_num) (by norm_num)
        ⟨800, by norm_num⟩,
      round1_clamp_bounds 120 _ (by norm_num) ⟨1200, by norm_num⟩⟩
  · exact ⟨pyInt_clamp_bounds 900 3200 _ (by norm_num) (by norm_num)
        ⟨900, by norm_num⟩,
      round1_clamp_bounds 100 _ (by norm_num) ⟨1000, by norm_num⟩⟩
  · exact ⟨pyInt_clamp_bounds 1000 3800 _ (by norm_num) (by norm_num)
        ⟨1000, by norm_num⟩,
      round1_clamp_bounds 110 _ (by norm_num) ⟨1100, by norm_num⟩⟩
  · exact ⟨pyInt_clamp_bounds 850 4500 _ (by norm_num) (by norm_num)
        ⟨850, by norm_num⟩,
      round1_clamp_bounds 140 _ (by norm_num) ⟨1400, by norm_num⟩⟩
  · exact ⟨pyInt_clamp_bounds 1200 7000 _ (by norm_num) (by norm_num)
        ⟨1200, by norm_num⟩,
      round1_clamp_bounds 180 _ (by norm_num) ⟨1800, by norm_num⟩⟩

/-- A run of the device loop's generation side: one
`generate_realistic_data` tick per element of `ticks` (the tick's random
draws, `time.time()` value and timestamp string), each tick feeding its
updated state to the next, exactly as `run`'s loop mutates `self.state`.
Returns all emitted samples in order and the final state. -/
def simRun (vt : VehicleType) (did : String) (st : SimState) :
    List (Draws × ℚ × String) → List ECUData × SimState
  | [] => ([], st)
  | (d, ct, ts) :: rest =>
      let out := generate_realistic_data vt did ts st d ct
      let next := simRun vt did out.2 rest
      (out.1 :: next.1, next.2)

theorem simRun_bounds (vt : VehicleType) (did : String) :
    ∀ (ticks : List (Draws × ℚ × String)) (st : SimState),
      ∀ sample ∈ (simRun vt did st ticks).1,
        (vehicle_config vt).rpm_lo ≤ (sample.rpm : ℚ) ∧
        (sample.rpm : ℚ) ≤ (vehicle_config vt).rpm_hi ∧
        0 ≤ sample.speed ∧ sample.speed ≤ (vehicle_config vt).speed_hi := by
  intro ticks
  induction ticks with
  | nil =>
      intro st sample hs
      simp [simRun] at hs
  | cons t rest ih =>
      intro st sample hs
      obtain ⟨d, ct, ts⟩ := t
      rw [simRun] at hs
      rcases List.mem_cons.mp hs with hhead | hmem
      · subst hhead
        obtain ⟨⟨h1, h2⟩, h3, h4⟩ :=
          generate_realistic_data_bounds vt did ts st d ct
        exact ⟨h1, h2, h3, h4⟩
      · exact ih _ sample hmem

/-- Claim C6: for every vehicle profile, every initial simulator state
inside the profile ranges, every number of generation ticks, and every
per-tick random draws inside their documented ranges, each sample emitted
anywhere in the run has `rpm` inside the profile rpm range and `speed`
inside `[0, max speed]`.  (The final clamps enforce the bounds on every
tick regardless of how the state has evolved, so the hypotheses on the
initial state and draws are not even needed.) -/
theorem spec_c6 (vt : VehicleType) (did : String) (st0 : SimState)
    (ticks : List (Draws × ℚ × String)) (hst : stateInProfile vt st0)
    (hd : ∀ t ∈ ticks, drawsInRange t.1) :
    ∀ sample ∈ (simRun vt did st0 ticks).1,
      (vehicle_config vt).rpm_lo ≤ (sample.rpm : ℚ) ∧
      (sample.rpm : ℚ) ≤ (vehicle_config vt).rpm_hi ∧
      0 ≤ sample.speed ∧ sample.speed ≤ (vehicle_config vt).speed_hi :=
  simRun_bounds vt did ticks st0

/-- Witness for C6: a two-tick sedan run from a state inside the profile
ranges, with all draws zero, keeps every emitted sample's rpm in
[800, 3500] and speed in [0, 120]. -/
theorem spec_c6_witness :
    stateInProfile VehicleType.SEDAN ⟨1000, 50, 90, 20, 80, 13, 3⟩ ∧
    (∀ t ∈ [((⟨0, 0, 0, 0, 0⟩ : Draws), (0 : ℚ), "t1"),
        ((⟨0, 0, 0, 0, 0⟩ : Draws), (1 : ℚ), "t2")], drawsInRange t.1) ∧
    (∀ sample ∈ (simRun VehicleType.SEDAN "d" ⟨1000, 50, 90, 20, 80, 13, 3⟩
        [((⟨0, 0, 0, 0, 0⟩ : Draws), (0 : ℚ), "t1"),
         ((⟨0, 0, 0, 0, 0⟩ : Draws), (1 : ℚ), "t2")]).1,
      (vehicle_config VehicleType.SEDAN).rpm_lo ≤ (sample.rpm : ℚ) ∧
      (sample.rpm : ℚ) ≤ (vehicle_config VehicleType.SEDAN).rpm_hi ∧
      0 ≤ sample.speed ∧
      sample.speed ≤ (vehicle_config VehicleType.SEDAN).speed_hi) := by
  have hst : stateInProfile VehicleType.SEDAN ⟨1000, 50, 90, 20, 80, 13, 3⟩ :=
    by norm_num [stateInProfile, vehicle_config]
  have hd : ∀ t ∈ [((⟨0, 0, 0, 0, 0⟩ : Draws), (0 : ℚ), "t1"),
      ((⟨0, 0, 0, 0, 0⟩ : Draws), (1 : ℚ), "t2")], drawsInRange t.1 := by
    intro t ht
    rcases List.mem_cons.mp ht with rfl | ht2
    · norm_num [drawsInRange]
    · rcases List.mem_singleton.mp ht2 with rfl
      norm_num [drawsInRange]
  exact ⟨hst, hd, spec_c6 VehicleType.SEDAN "d" ⟨1000, 50, 90, 20, 80, 13, 3⟩
    [((⟨0, 0, 0, 0, 0⟩ : Draws), (0 : ℚ), "t1"),
     ((⟨0, 0, 0, 0, 0⟩ : Draws), (1 : ℚ), "t2")] hst hd⟩

/-! ### C7: gear as a step function of speed -/

set_option maxHeartbeats 2000000 in
/-- Claim C7: every generated sample's gear equals the fixed speed-bucket
step function applied to the tick's (pre-clamp) speed value; that step
function is monotone in speed, uses the thresholds 20/40/60/80/100/120
km/h (gear 1 below 20 up through gear 6 below 120), yields 7 above 120 km/h
for the sport profile, and is capped at 6 for every other profile. -/
theorem spec_c7 :
    ∀ (vt : VehicleType) (did ts : String) (st : SimState) (d : Draws)
      (ct : ℚ),
      (generate_realistic_data vt did ts st d ct).1.gear =
        gearStep vt (speedPre vt st d ct) ∧
      Monotone (gearStep vt) ∧
      (∀ s : ℚ,
        (s < 20 → gearStep vt s = 1) ∧
        (20 ≤ s → s < 40 → gearStep vt s = 2) ∧
        (40 ≤ s → s < 60 → gearStep vt s = 3) ∧
        (60 ≤ s → s < 80 → gearStep vt s = 4) ∧
        (80 ≤ s → s < 100 → gearStep vt s = 5) ∧
        (100 ≤ s → s < 120 → gearStep vt s = 6) ∧
        (120 ≤ s → gearStep VehicleType.SPORT s = 7) ∧
        (120 ≤ s → vt ≠ VehicleType.SPORT → gearStep vt s = 6)) ∧
      (vt ≠ VehicleType.SPORT → ∀ s : ℚ, gearStep vt s ≤ 6) ∧
      (∀ s : ℚ, gearStep vt s ≤ 7) := by
  intro vt did ts st d ct
  refine ⟨rfl, ?_, ?_, ?_, ?_⟩
  · intro a b hab
    unfold gearStep
    split_ifs <;> first | omega | linarith
  · intro s
    refine ⟨?_, ?_, ?_, ?_, ?_, ?_, ?_, ?_⟩
    · intro h
      unfold gearStep
      rw [if_pos h]
    · intro h1 h2
      unfold gearStep
      rw [if_neg (by linarith), if_pos h2]
    · intro h1 h2
      unfold gearStep
      rw [if_neg (by linarith), if_neg (by linarith), if_pos h2]
    · intro h1 h2
      unfold gearStep
      rw [if_neg (by linarith), if_neg (by linarith), if_neg (by linarith),
        if_pos h2]
    · intro h1 h2
      unfold gearStep
      rw [if_neg (by linarith), if_neg (by linarith), if_neg (by linarith),
        if_neg (by linarith), if_pos h2]
    · intro h1 h2
      unfold gearStep
      rw [if_neg (by linarith), if_neg (by linarith), if_neg (by linarith),
        if_neg (by linarith), if_neg (by linarith), if_pos h2]
    · intro h
      unfold gearStep
      rw [if_neg (by linarith), if_neg (by linarith), if_neg (by linarith),
        if_neg (by linarith), if_neg (by linarith), if_neg (by linarith),
        if_pos rfl]
    · intro h hvt
      unfold gearStep
      rw [if_neg (by linarith), if_neg (by linarith), if_neg (by linarith),
        if_neg (by linarith), if_neg (by linarith), if_neg (by linarith),
        if_neg hvt]
  · intro hvt s
    unfold gearStep
    split_ifs <;> omega
  · intro s
    unfold gearStep
    split_ifs <;> omega

/-- Witness for C7: concrete instances of the step function — gear 3 at
50 km/h, gear 7 above 120 km/h for sport, gear 6 above 120 km/h for a
non-sport profile. -/
theorem spec_c7_witness :
    gearStep VehicleType.SEDAN 50 = 3 ∧
    gearStep VehicleType.SPORT 130 = 7 ∧
    gearStep VehicleType.HATCH 130 = 6 := by
  obtain ⟨-, -, hth, -, -⟩ :=
    spec_c7 VehicleType.SEDAN "d" "t" ⟨0, 0, 0, 0, 0, 0, 0⟩ ⟨0, 0, 0, 0, 0⟩ 0
  obtain ⟨-, -, hth2, -, -⟩ :=
    spec_c7 VehicleType.HATCH "d" "t" ⟨0, 0, 0, 0, 0, 0, 0⟩ ⟨0, 0, 0, 0, 0⟩ 0
  refine ⟨?_, ?_, ?_⟩
  · exact (hth 50).2.2.1 (by norm_num) (by norm_num)
  · exact (hth 130).2.2.2.2.2.2.1 (by norm_num)
  · exact (hth2 130).2.2.2.2.2.2.2 (by norm_num) (by decide)

/-! ### C8: fleet creation -/

theorem pyListMul_getElem {α : Type} (l : List α) (hl : l ≠ []) :
    ∀ (k i : ℕ), i < k * l.length →
      (pyListMul l k)[i]? = l[i % l.length]? := by
  intro k
  induction k with
  | zero =>
      intro i hi
      simp at hi
  | succ k ih =>
      intro i hi
      show (l ++ pyListMul l k)[i]? = _
      rw [List.getElem?_append]
      by_cases hlt : i < l.length
      · rw [if_pos hlt, Nat.mod_eq_of_lt hlt]
      · push_neg at hlt
        rw [if_neg (by omega)]
        have hlen : 0 < l.length := List.length_pos.mpr hl
        have hbound : i - l.length < k * l.length := by
          have h2 : i < k * l.length + l.length := by
            have h3 : (k + 1) * l.length = k * l.length + l.length :=
              Nat.succ_mul k l.length
            omega
          omega
        rw [ih (i - l.length) hbound]
        have hmod : (i - l.length) % l.length = i % l.length := by
          conv_rhs => rw [← Nat.sub_add_cancel hlt]
          rw [Nat.add_mod_right]
        rw [hmod]

/-- Claim C8, amended: `create_devices` performs no validation of the
device count — for `n < 1` it returns normally with an empty device list
(the `n < 1` check lives in the CLI `main`, which logs an error and
returns before calling `create_devices`); for `n ≥ 1` with a non-empty
supplied profile list it creates exactly `n` devices named
`Truck_001`, `Truck_002`, …, assigns the profiles cyclically (round-robin,
repeating the list when it is shorter than `n`), and returns the created
device ids. -/
theorem spec_c8 (n : ℤ) (ps rand : List VehicleType) (hn : 1 ≤ n)
    (hps : ps ≠ []) :
    (create_devices n (some ps) rand).2.length = n.toNat ∧
    (∀ i : ℕ, i < n.toNat →
      (create_devices n (some ps) rand).2[i]? = some (truckId (i + 1)) ∧
      ((create_devices n (some ps) rand).1[i]?).map Prod.snd =
        ps[i % ps.length]?) ∧
    main_devices_invalid n = false ∧
    (∀ m : ℤ, m < 1 → main_devices_invalid m = true ∧
      create_devices m (some ps) rand = ([], [])) := by
  have hlen0 : 0 < ps.length := List.length_pos.mpr hps
  have hvts : ∀ i : ℕ, i < n.toNat →
      ((match (some ps : Option (List VehicleType)) with
        | none => rand
        | some l =>
            if (l.length : ℤ) < n then
              (pyListMul l (n.toNat / l.length + 1)).take n.toNat
            else l)[i]?) = ps[i % ps.length]? := by
    intro i hi
    by_cases hshort : (ps.length : ℤ) < n
    · simp only [hshort, if_true]
      rw [List.getElem?_take, if_pos hi]
      have hbound : i < (n.toNat / ps.length + 1) * ps.length := by
        have hdm := Nat.div_add_mod n.toNat ps.length
        have hmlt : n.toNat % ps.length < ps.length := Nat.mod_lt _ hlen0
        have hexp : (n.toNat / ps.length + 1) * ps.length =
            ps.length * (n.toNat / ps.length) + ps.length := by ring
        omega
      exact pyListMul_getElem ps hps _ i hbound
    · simp only [hshort, if_false]
      have hle : n.toNat ≤ ps.length := by omega
      rw [Nat.mod_eq_of_lt (by omega)]
  refine ⟨?_, ?_, ?_, ?_⟩
  · simp [create_devices]
  · intro i hi
    constructor
    · show (((List.range n.toNat).map _).map Prod.fst)[i]? = _
      rw [List.getElem?_map, List.getElem?_map, List.getElem?_range hi]
      rfl
    · show (((List.range n.toNat).map _)[i]?).map Prod.snd = _
      rw [List.getElem?_map, List.getElem?_range hi]
      have h2 := hvts i hi
      have hm : i % ps.length < ps.length := Nat.mod_lt _ hlen0
      rw [List.getElem?_eq_getElem hm] at h2 ⊢
      simp only [Option.map_some']
      rw [List.getD_eq_getElem?_getD, h2]
      rfl
  · simp only [main_devices_invalid, decide_eq_false_iff_not]
    omega
  · intro m hm
    constructor
    · simp only [main_devices_invalid, decide_eq_true_eq]
      omega
    · have hnot : ¬ ((ps.length : ℤ) < m) := by omega
      have hzero : m.toNat = 0 := by omega
      simp [create_devices, hnot, hzero]

/-- Witness for C8: five required devices from two supplied profiles get
ids Truck_001..Truck_005 with profiles assigned round-robin. -/
theorem spec_c8_witness :
    (create_devices 5 (some [VehicleType.SEDAN, VehicleType.SUV])
        []).2.length = 5 ∧
    (create_devices 5 (some [VehicleType.SEDAN, VehicleType.SUV])
        []).2[4]? = some "Truck_005" ∧
    ((create_devices 5 (some [VehicleType.SEDAN, VehicleType.SUV])
        []).1[4]?).map Prod.snd = some VehicleType.SEDAN ∧
    main_devices_invalid 5 = false := by
  obtain ⟨hlen, hidx, hmain, -⟩ :=
    spec_c8 5 [VehicleType.SEDAN, VehicleType.SUV] [] (by norm_num)
      (by decide)
  obtain ⟨hid, hprof⟩ := hidx 4 (by norm_num)
  refine ⟨hlen, ?_, ?_, hmain⟩
  · rw [hid]
    rfl
  · rw [hprof]
    rfl

/-- Counterexample to C8 as stated: `create_devices` called with `n = 0`
does not fail — it returns normally with an empty device list (the claim
says it must fail with a ConfigurationError rather than return an empty
list); the `n < 1` guard exists only in `main`. -/
theorem spec_c8_cex :
    create_devices 0 (some [VehicleType.SEDAN]) [] = ([], []) ∧
    main_devices_invalid 0 = true := by
  refine ⟨by decide, by decide⟩

end Esp32
